import Mathlib

/-!
Shallow embedding of `src/yb/client/table_creator.cc` (YBTableCreator):
the fluent builder that accumulates a table specification and the
`Create()` submission routine that validates it, resolves the tablet
count, assembles the wire request, sends it to the catalog master with an
absolute deadline, tolerates an already-present answer, and optionally
waits for the table to become ready.

External collaborators (the YBClient RPC layer, the clock, the topology
service, schema serialization) are modelled as an explicit environment of
pure functions; the branching logic of `Create()` itself is translated
line by line from the source.
-/

namespace YbTableCreator

/-- Status codes observable in `Create()`: `kOk` (`Status::OK`),
`kInvalidArgument` (the local validation failures), `kAlreadyPresent`
(`IsAlreadyPresent()`), plus codes that can only arrive from
collaborators. -/
inductive StatusCode where
  | kOk
  | kInvalidArgument
  | kAlreadyPresent
  | kTimedOut
  | kNotFound
  | kRuntimeError
  deriving DecidableEq, Repr

/-- `yb::Status`: a code plus a message. -/
structure Status where
  code : StatusCode
  message : String
  deriving DecidableEq, Repr

/-- `Status::ok()`. -/
def Status.ok (s : Status) : Bool := s.code = StatusCode.kOk

/-- `Status::IsAlreadyPresent()`. -/
def Status.IsAlreadyPresent (s : Status) : Bool := s.code = StatusCode.kAlreadyPresent

/-- `Status::CloneAndPrepend` as used by `RETURN_NOT_OK_PREPEND`: same
code, message prefixed. -/
def Status.CloneAndPrepend (s : Status) (m : String) : Status :=
  ⟨s.code, m ++ ": " ++ s.message⟩

/-- `TableType` (protobuf enum) values used by the source. -/
inductive TableType where
  | YQL_TABLE_TYPE
  | REDIS_TABLE_TYPE
  | PGSQL_TABLE_TYPE
  | TRANSACTION_STATUS_TABLE_TYPE
  deriving DecidableEq, Repr

/-- `TableType_Name`, used only in the success log line. -/
def TableType.name : TableType → String
  | .YQL_TABLE_TYPE => "YQL_TABLE_TYPE"
  | .REDIS_TABLE_TYPE => "REDIS_TABLE_TYPE"
  | .PGSQL_TABLE_TYPE => "PGSQL_TABLE_TYPE"
  | .TRANSACTION_STATUS_TABLE_TYPE => "TRANSACTION_STATUS_TABLE_TYPE"

/-- `YBTableName`: namespace plus local table name.  The `is_system` bit
stands for `YBTableName::is_system()`. Modelled from the spec: "the table
name identifies a system table" — the predicate's implementation lives
outside this file's source, so it is carried as data of the name. -/
structure YBTableName where
  namespace_name : String
  table_name : String
  is_system : Bool
  deriving DecidableEq, Repr

/-- `YBTableName::ToString()` (external helper): qualified name used in
the error-prepend text. Modelled from the spec: failures are "annotated
with object kind and qualified name". -/
def YBTableName.ToString (n : YBTableName) : String :=
  n.namespace_name ++ "." ++ n.table_name

/-- `PartitionSchemaPB::HashSchema` enum values set by
`YBTableCreator::hash_schema`. -/
inductive PBHashSchema where
  | MULTI_COLUMN_HASH_SCHEMA
  | REDIS_HASH_SCHEMA
  | PGSQL_HASH_SCHEMA
  deriving DecidableEq, Repr

/-- Client-side `YBHashSchema` enum, argument of
`YBTableCreator::hash_schema`. -/
inductive YBHashSchema where
  | kMultiColumnHash
  | kRedisHash
  | kPgsqlHash
  deriving DecidableEq, Repr

/-- `PartitionSchemaPB::HashBucketSchemaPB`: ordered column names (each
`add_columns()->set_name(...)`), bucket count and seed. -/
structure HashBucketSchemaPB where
  columns : List String
  num_buckets : Int
  seed : Int
  deriving DecidableEq, Repr

/-- `PartitionSchemaPB::RangeSchemaPB`: ordered column names. -/
structure RangeSchemaPB where
  columns : List String
  deriving DecidableEq, Repr

/-- `PartitionSchemaPB`: optional hash-schema kind, repeated hash bucket
schemas, optional range schema. -/
structure PartitionSchemaPB where
  hash_schema : Option PBHashSchema
  hash_bucket_schemas : List HashBucketSchemaPB
  range_schema : Option RangeSchemaPB
  deriving DecidableEq, Repr

/-- An empty `PartitionSchemaPB`, the builder's initial value. -/
def PartitionSchemaPB.default : PartitionSchemaPB := ⟨none, [], none⟩

/-- `IndexInfoPB`: optional fields as protobuf keeps them (present /
absent), with the protobuf getters defaulting to `false`. -/
structure IndexInfoPB where
  indexed_table_id : Option String
  is_local : Option Bool
  is_unique : Option Bool
  use_mangled_column_name : Option Bool
  deriving DecidableEq, Repr

/-- Protobuf getter `IndexInfoPB::is_local()` (default `false`). -/
def IndexInfoPB.is_local_get (i : IndexInfoPB) : Bool := i.is_local.getD false

/-- Protobuf getter `IndexInfoPB::is_unique()` (default `false`). -/
def IndexInfoPB.is_unique_get (i : IndexInfoPB) : Bool := i.is_unique.getD false

/-- An empty `IndexInfoPB`, the builder's initial value. -/
def IndexInfoPB.default : IndexInfoPB := ⟨none, none, none, none⟩

/-- Column data types; only `BINARY` is used by the source (the
synthesized key column). -/
inductive DataType where
  | BINARY
  | STRING
  | INT64
  deriving DecidableEq, Repr

/-- One column of a `YBSchema` as far as `Create()` observes it: name,
type, not-null and hash-primary-key markers. -/
structure YBColumnSchema where
  col_name : String
  col_type : DataType
  not_null : Bool
  hash_primary_key : Bool
  deriving DecidableEq, Repr

/-- `YBSchema` as the capability `Create()` uses: the columns (consumed
by `SchemaToPB`) and `table_properties().num_tablets()`. -/
structure YBSchema where
  columns : List YBColumnSchema
  props_num_tablets : Int
  deriving DecidableEq, Repr

/-- `kRedisKeyColumnName` from `redis_constants.h`. Modelled from the
spec: the synthesized schema is a "minimal one-column binary primary-key
schema"; the constant itself lives outside this file's source. -/
def kRedisKeyColumnName : String := "key"

/-- The schema `Create()` synthesizes for Redis and transaction-status
tables: `b.AddColumn(kRedisKeyColumnName)->Type(BINARY)->NotNull()
->HashPrimaryKey()`. Modelled from the spec for the `YBSchemaBuilder`
part (external): a one-column binary hash-primary-key schema with no
declared tablet count. -/
def redisSchema : YBSchema :=
  { columns := [⟨kRedisKeyColumnName, DataType.BINARY, true, true⟩]
    props_num_tablets := 0 }

/-- Wire form of the schema inside `CreateTableRequestPB`:
`SchemaToPB` copies the columns; `mutable_table_properties()
->set_num_tablets` is applied afterwards by `Create()`.  Modelled from
the spec for `SchemaToPB` (external): "serialized schema annotated with
the resolved tablet count". -/
structure SchemaPB where
  columns : List YBColumnSchema
  props_num_tablets : Int
  deriving DecidableEq, Repr

/-- `SchemaToPB(internal::GetSchema(*schema_), req.mutable_schema())`. -/
def SchemaToPB (s : YBSchema) : SchemaPB :=
  ⟨s.columns, s.props_num_tablets⟩

/-- Opaque `master::ReplicationInfoPB`; `Create()` only copies it. -/
structure ReplicationInfoPB where
  payload : Nat
  deriving DecidableEq, Repr

/-- `master::CreateTableRequestPB` as assembled by `Create()`; optional
fields are present exactly when the corresponding `set_` call ran. -/
structure CreateTableRequestPB where
  name : String
  namespace_name : String
  table_type : TableType
  creator_role_name : Option String
  table_id : Option String
  is_pg_catalog_table : Option Bool
  is_pg_shared_table : Option Bool
  replication_info : Option ReplicationInfoPB
  schema : SchemaPB
  num_tablets : Int
  partition_schema : PartitionSchemaPB
  index_info : Option IndexInfoPB
  indexed_table_id : Option String
  is_local_index : Option Bool
  is_unique_index : Option Bool
  deriving DecidableEq, Repr

/-- The builder state: the member fields of `YBTableCreator`. `timeout_`
is `some` exactly when the `MonoDelta` is `Initialized()`. -/
structure YBTableCreator where
  table_name_ : YBTableName
  table_type_ : TableType
  creator_role_name_ : String
  table_id_ : String
  is_pg_catalog_table_ : Option Bool
  is_pg_shared_table_ : Option Bool
  partition_schema_ : PartitionSchemaPB
  num_tablets_ : Int
  schema_ : Option YBSchema
  replication_info_ : ReplicationInfoPB
  has_replication_info_ : Bool
  index_info_ : IndexInfoPB
  timeout_ : Option Nat
  wait_ : Bool
  deriving DecidableEq, Repr

/-- `YBTableCreator::table_name`. -/
def YBTableCreator.table_name (st : YBTableCreator) (n : YBTableName) : YBTableCreator :=
  { st with table_name_ := n }

/-- `YBTableCreator::table_type`.  The source converts the client enum
through `YBTable::ClientToPBTableType` (external, a bijective renaming);
the embedding takes the protobuf value directly. -/
def YBTableCreator.table_type (st : YBTableCreator) (t : TableType) : YBTableCreator :=
  { st with table_type_ := t }

/-- `YBTableCreator::creator_role_name`. -/
def YBTableCreator.creator_role_name (st : YBTableCreator) (r : String) : YBTableCreator :=
  { st with creator_role_name_ := r }

/-- `YBTableCreator::table_id`. -/
def YBTableCreator.table_id (st : YBTableCreator) (id : String) : YBTableCreator :=
  { st with table_id_ := id }

/-- `YBTableCreator::is_pg_catalog_table` — no argument; sets `true`. -/
def YBTableCreator.is_pg_catalog_table (st : YBTableCreator) : YBTableCreator :=
  { st with is_pg_catalog_table_ := some true }

/-- `YBTableCreator::is_pg_shared_table` — no argument; sets `true`. -/
def YBTableCreator.is_pg_shared_table (st : YBTableCreator) : YBTableCreator :=
  { st with is_pg_shared_table_ := some true }

/-- `YBTableCreator::hash_schema`: maps the client enum onto the
protobuf enum inside `partition_schema_`. -/
def YBTableCreator.hash_schema (st : YBTableCreator) (h : YBHashSchema) : YBTableCreator :=
  { st with partition_schema_ :=
      { st.partition_schema_ with hash_schema :=
          match h with
          | .kMultiColumnHash => some PBHashSchema.MULTI_COLUMN_HASH_SCHEMA
          | .kRedisHash => some PBHashSchema.REDIS_HASH_SCHEMA
          | .kPgsqlHash => some PBHashSchema.PGSQL_HASH_SCHEMA } }

/-- `YBTableCreator::num_tablets`. -/
def YBTableCreator.num_tablets (st : YBTableCreator) (count : Int) : YBTableCreator :=
  { st with num_tablets_ := count }

/-- `YBTableCreator::schema` — stores the externally owned pointer. -/
def YBTableCreator.schema (st : YBTableCreator) (s : YBSchema) : YBTableCreator :=
  { st with schema_ := some s }

/-- Three-argument `YBTableCreator::add_hash_partitions`: appends one
`HashBucketSchemaPB` with the given columns, bucket count and seed. -/
def YBTableCreator.add_hash_partitions3 (st : YBTableCreator)
    (columns : List String) (num_buckets : Int) (seed : Int) : YBTableCreator :=
  { st with partition_schema_ :=
      { st.partition_schema_ with hash_bucket_schemas :=
          st.partition_schema_.hash_bucket_schemas ++ [⟨columns, num_buckets, seed⟩] } }

/-- Two-argument `YBTableCreator::add_hash_partitions`: delegates to the
three-argument form with seed 0. -/
def YBTableCreator.add_hash_partitions (st : YBTableCreator)
    (columns : List String) (num_buckets : Int) : YBTableCreator :=
  st.add_hash_partitions3 columns num_buckets 0

/-- `YBTableCreator::set_range_partition_columns`: `Clear()`s the range
schema then adds the given columns, so the previous list is discarded. -/
def YBTableCreator.set_range_partition_columns (st : YBTableCreator)
    (columns : List String) : YBTableCreator :=
  { st with partition_schema_ :=
      { st.partition_schema_ with range_schema := some ⟨columns⟩ } }

/-- `YBTableCreator::replication_info`. -/
def YBTableCreator.replication_info (st : YBTableCreator)
    (ri : ReplicationInfoPB) : YBTableCreator :=
  { st with replication_info_ := ri, has_replication_info_ := true }

/-- `YBTableCreator::indexed_table_id`. -/
def YBTableCreator.indexed_table_id (st : YBTableCreator) (id : String) : YBTableCreator :=
  { st with index_info_ := { st.index_info_ with indexed_table_id := some id } }

/-- `YBTableCreator::is_local_index`. -/
def YBTableCreator.is_local_index (st : YBTableCreator) (b : Bool) : YBTableCreator :=
  { st with index_info_ := { st.index_info_ with is_local := some b } }

/-- `YBTableCreator::is_unique_index`. -/
def YBTableCreator.is_unique_index (st : YBTableCreator) (b : Bool) : YBTableCreator :=
  { st with index_info_ := { st.index_info_ with is_unique := some b } }

/-- `YBTableCreator::use_mangled_column_name`. -/
def YBTableCreator.use_mangled_column_name (st : YBTableCreator) (b : Bool) : YBTableCreator :=
  { st with index_info_ := { st.index_info_ with use_mangled_column_name := some b } }

/-- `YBTableCreator::timeout`. -/
def YBTableCreator.timeout (st : YBTableCreator) (t : Nat) : YBTableCreator :=
  { st with timeout_ := some t }

/-- `YBTableCreator::wait`. -/
def YBTableCreator.wait (st : YBTableCreator) (w : Bool) : YBTableCreator :=
  { st with wait_ := w }

/-- Collaborator calls `Create()` makes, in order, so that "before any
collaborator is invoked" and "proceeds to the readiness-wait phase" are
statable. -/
inductive Event where
  | numTabletsQuery (t : TableType)
  | createTableCall (req : CreateTableRequestPB) (deadline : Nat)
  | waitCall (tableId : String) (deadline : Nat)
  deriving DecidableEq, Repr

/-- Environment of external collaborators used by `Create()`:
the coarse clock, the client's default admin-operation timeout,
`YBClient::NumTabletsForUserTable`, `YBClient::Data::CreateTable`
(returns its status and the value it leaves in the `table_id_`
out-parameter), and `YBClient::Data::WaitForCreateTableToFinish`. -/
structure CreateEnv where
  now : Nat
  default_admin_operation_timeout : Nat
  numTabletsForUserTable : TableType → Except Status Int
  createTable : CreateTableRequestPB → Nat → String → Status × String
  waitForCreateTableToFinish : String → Nat → Except Status Unit

/-- Result of `Create()`: either a `CHECK` failure (process abort — the
source's `CHECK(!schema_)`), or a returned `Status` together with the
final value of `table_id_` and the trace of collaborator calls. -/
inductive CreateResult where
  | crashed (msg : String)
  | returned (s : Status) (finalTableId : String) (events : List Event)
  deriving DecidableEq, Repr

/-- The `object_type` string of `Create()`:
`index_info_.has_indexed_table_id() ? "index" : "table"`. -/
def objectType (st : YBTableCreator) : String :=
  if st.index_info_.indexed_table_id.isSome then "index" else "table"

/-- Outcome of the schema section of `Create()` (lines 163–179): a
`CHECK` failure, a missing schema, or the effective schema to use. -/
inductive SchemaStep where
  | checkFailed (msg : String)
  | missing
  | found (sch : YBSchema)
  deriving DecidableEq, Repr

/-- The schema section of `Create()`: for Redis and transaction-status
table types, `CHECK(!schema_)` then synthesize `redisSchema`; otherwise
use `schema_`, failing with missing when it was never set. -/
def schemaStep (st : YBTableCreator) : SchemaStep :=
  if st.table_type_ = TableType.REDIS_TABLE_TYPE ∨
     st.table_type_ = TableType.TRANSACTION_STATUS_TABLE_TYPE then
    match st.schema_ with
    | some _ => SchemaStep.checkFailed "Schema should not be set for redis table creation"
    | none => SchemaStep.found redisSchema
  else
    match st.schema_ with
    | some sch => SchemaStep.found sch
    | none => SchemaStep.missing

/-- Tablet-count resolution (lines 211–223), with the event recording
whether `NumTabletsForUserTable` was consulted: explicit count when
positive, else the schema's declared count when positive, else 1 for a
system table, else the topology recommendation (whose failure
propagates). -/
def resolveNumTablets (st : YBTableCreator) (sch : YBSchema) (env : CreateEnv) :
    Except Status Int × List Event :=
  if st.num_tablets_ > 0 then
    (Except.ok st.num_tablets_, [])
  else if sch.props_num_tablets > 0 then
    (Except.ok sch.props_num_tablets, [])
  else if st.table_name_.is_system then
    (Except.ok 1, [])
  else
    (env.numTabletsForUserTable st.table_type_, [Event.numTabletsQuery st.table_type_])

/-- Request assembly (lines 181–238) given the effective schema and the
resolved tablet count: optional fields are set exactly under the
source's conditions, the schema is serialized and annotated with the
resolved count, and an index association additionally duplicates the
legacy scalar fields. -/
def buildRequest (st : YBTableCreator) (sch : YBSchema) (n : Int) : CreateTableRequestPB :=
  { name := st.table_name_.table_name
    namespace_name := st.table_name_.namespace_name
    table_type := st.table_type_
    creator_role_name :=
      if st.creator_role_name_ = "" then none else some st.creator_role_name_
    table_id := if st.table_id_ = "" then none else some st.table_id_
    is_pg_catalog_table :=
      match st.is_pg_catalog_table_ with
      | some b => some b
      | none => none
    is_pg_shared_table :=
      match st.is_pg_shared_table_ with
      | some b => some b
      | none => none
    replication_info :=
      if st.has_replication_info_ then some st.replication_info_ else none
    schema := { SchemaToPB sch with props_num_tablets := n }
    num_tablets := n
    partition_schema := st.partition_schema_
    index_info :=
      if st.index_info_.indexed_table_id.isSome then some st.index_info_ else none
    indexed_table_id :=
      if st.index_info_.indexed_table_id.isSome then st.index_info_.indexed_table_id else none
    is_local_index :=
      if st.index_info_.indexed_table_id.isSome then some st.index_info_.is_local_get else none
    is_unique_index :=
      if st.index_info_.indexed_table_id.isSome then some st.index_info_.is_unique_get else none }

/-- The absolute deadline (lines 240–241): now plus the caller timeout
when `Initialized()`, else the default admin-operation timeout. -/
def deadlineOf (st : YBTableCreator) (env : CreateEnv) : Nat :=
  env.now + (match st.timeout_ with
             | some t => t
             | none => env.default_admin_operation_timeout)

/-- The tail of `Create()` once the effective schema is known (lines
211–268): tablet-count resolution, request assembly, deadline, the
master call with already-present tolerance, and the optional readiness
wait. -/
def submitWithSchema (st : YBTableCreator) (env : CreateEnv) (sch : YBSchema) : CreateResult :=
  match resolveNumTablets st sch env with
  | (Except.error e, evs) => CreateResult.returned e st.table_id_ evs
  | (Except.ok n, evs) =>
      let d := deadlineOf st env
      let req := buildRequest st sch n
      let res := env.createTable req d st.table_id_
      let s := res.1
      let tid := res.2
      let evs1 := evs ++ [Event.createTableCall req d]
      if ¬ s.ok ∧ ¬ s.IsAlreadyPresent then
        CreateResult.returned
          (s.CloneAndPrepend
            ("Error creating " ++ objectType st ++ " " ++
              st.table_name_.ToString ++ " on the master"))
          tid evs1
      else if st.wait_ then
        match env.waitForCreateTableToFinish tid d with
        | Except.error e =>
            CreateResult.returned e tid (evs1 ++ [Event.waitCall tid d])
        | Except.ok _ =>
            CreateResult.returned s tid (evs1 ++ [Event.waitCall tid d])
      else
        CreateResult.returned s tid evs1

/-- `YBTableCreator::Create()` (lines 158–269). -/
def Create (st : YBTableCreator) (env : CreateEnv) : CreateResult :=
  if st.table_name_.table_name = "" then
    CreateResult.returned
      ⟨StatusCode.kInvalidArgument, "Missing " ++ objectType st ++ " name"⟩
      st.table_id_ []
  else
    match schemaStep st with
    | SchemaStep.checkFailed m => CreateResult.crashed m
    | SchemaStep.missing =>
        CreateResult.returned ⟨StatusCode.kInvalidArgument, "Missing schema"⟩ st.table_id_ []
    | SchemaStep.found sch => submitWithSchema st env sch

/-- The builder field written by each setter; setters touching disjoint
protobuf subfields get distinct tags, the two `add_hash_partitions`
overloads share one (they append to the same repeated field). -/
inductive BuilderField where
  | fName | fType | fCreatorRole | fTableId | fPgCatalog | fPgShared
  | fHashSchemaKind | fNumTablets | fSchema | fHashBuckets | fRangeColumns
  | fReplication | fIdxTableId | fIdxLocal | fIdxUnique | fIdxMangled
  | fTimeout | fWait
  deriving DecidableEq, Repr

/-- One invocation of a public builder setter, with its arguments. -/
inductive SetterCall where
  | table_name (n : YBTableName)
  | table_type (t : TableType)
  | creator_role_name (r : String)
  | table_id (id : String)
  | is_pg_catalog_table
  | is_pg_shared_table
  | hash_schema (h : YBHashSchema)
  | num_tablets (c : Int)
  | schema (s : YBSchema)
  | add_hash_partitions (cols : List String) (nb : Int)
  | add_hash_partitions3 (cols : List String) (nb : Int) (seed : Int)
  | set_range_partition_columns (cols : List String)
  | replication_info (ri : ReplicationInfoPB)
  | indexed_table_id (id : String)
  | is_local_index (b : Bool)
  | is_unique_index (b : Bool)
  | use_mangled_column_name (b : Bool)
  | timeout (t : Nat)
  | wait (w : Bool)
  deriving DecidableEq, Repr

/-- The field a setter call targets. -/
def SetterCall.targets : SetterCall → BuilderField
  | .table_name _ => .fName
  | .table_type _ => .fType
  | .creator_role_name _ => .fCreatorRole
  | .table_id _ => .fTableId
  | .is_pg_catalog_table => .fPgCatalog
  | .is_pg_shared_table => .fPgShared
  | .hash_schema _ => .fHashSchemaKind
  | .num_tablets _ => .fNumTablets
  | .schema _ => .fSchema
  | .add_hash_partitions _ _ => .fHashBuckets
  | .add_hash_partitions3 _ _ _ => .fHashBuckets
  | .set_range_partition_columns _ => .fRangeColumns
  | .replication_info _ => .fReplication
  | .indexed_table_id _ => .fIdxTableId
  | .is_local_index _ => .fIdxLocal
  | .is_unique_index _ => .fIdxUnique
  | .use_mangled_column_name _ => .fIdxMangled
  | .timeout _ => .fTimeout
  | .wait _ => .fWait

/-- Run one setter call on the builder; each dispatches to the
corresponding method, which is total (no validation, no failure mode)
and yields the same builder object mutated in place. -/
def SetterCall.apply : SetterCall → YBTableCreator → YBTableCreator
  | .table_name n, st => st.table_name n
  | .table_type t, st => st.table_type t
  | .creator_role_name r, st => st.creator_role_name r
  | .table_id id, st => st.table_id id
  | .is_pg_catalog_table, st => st.is_pg_catalog_table
  | .is_pg_shared_table, st => st.is_pg_shared_table
  | .hash_schema h, st => st.hash_schema h
  | .num_tablets c, st => st.num_tablets c
  | .schema s, st => st.schema s
  | .add_hash_partitions cols nb, st => st.add_hash_partitions cols nb
  | .add_hash_partitions3 cols nb seed, st => st.add_hash_partitions3 cols nb seed
  | .set_range_partition_columns cols, st => st.set_range_partition_columns cols
  | .replication_info ri, st => st.replication_info ri
  | .indexed_table_id id, st => st.indexed_table_id id
  | .is_local_index b, st => st.is_local_index b
  | .is_unique_index b, st => st.is_unique_index b
  | .use_mangled_column_name b, st => st.use_mangled_column_name b
  | .timeout t, st => st.timeout t
  | .wait w, st => st.wait w

/-- A freshly constructed `YBTableCreator`.  Modelled from the spec for
the header defaults (not in this file's source): "created empty by the
caller", `waitForReady` "default true", counts zero, optionals unset. -/
def initialCreator : YBTableCreator :=
  { table_name_ := ⟨"", "", false⟩
    table_type_ := TableType.YQL_TABLE_TYPE
    creator_role_name_ := ""
    table_id_ := ""
    is_pg_catalog_table_ := none
    is_pg_shared_table_ := none
    partition_schema_ := PartitionSchemaPB.default
    num_tablets_ := 0
    schema_ := none
    replication_info_ := ⟨0⟩
    has_replication_info_ := false
    index_info_ := IndexInfoPB.default
    timeout_ := none
    wait_ := true }

/-- A small externally supplied schema with no declared tablet count. -/
def sampleSchema : YBSchema :=
  ⟨[⟨"v", DataType.STRING, true, true⟩], 0⟩

/-- A schema whose table properties declare 3 tablets. -/
def sampleSchema3 : YBSchema :=
  ⟨[⟨"v", DataType.STRING, true, true⟩], 3⟩

/-- A well-formed builder state: named table, schema set, explicit
tablet count 5. -/
def readySt : YBTableCreator :=
  { initialCreator with
      table_name_ := ⟨"ns", "t", false⟩
      schema_ := some sampleSchema
      num_tablets_ := 5 }

/-- An environment whose master call succeeds and whose readiness wait
succeeds. -/
def okEnv : CreateEnv :=
  { now := 100
    default_admin_operation_timeout := 60
    numTabletsForUserTable := fun _ => Except.ok 7
    createTable := fun _ _ tid => (⟨StatusCode.kOk, ""⟩, tid)
    waitForCreateTableToFinish := fun _ _ => Except.ok () }

/-- An environment whose master call answers `AlreadyPresent` (leaving
`table_id_` untouched) and whose readiness wait succeeds. -/
def alreadyEnv : CreateEnv :=
  { okEnv with
      createTable := fun _ _ tid => (⟨StatusCode.kAlreadyPresent, "Table already exists"⟩, tid) }

/-- A resolution error carries exactly the topology-query event: the
only failing branch of `resolveNumTablets` is the
`NumTabletsForUserTable` call. -/
theorem resolve_error_evs (st : YBTableCreator) (sch : YBSchema) (env : CreateEnv)
    (e : Status) (evs0 : List Event)
    (h : resolveNumTablets st sch env = (Except.error e, evs0)) :
    evs0 = [Event.numTabletsQuery st.table_type_] := by
  unfold resolveNumTablets at h
  split_ifs at h <;> simp_all

/-- A successful resolution carries either no event or exactly the
topology-query event. -/
theorem resolve_ok_evs (st : YBTableCreator) (sch : YBSchema) (env : CreateEnv)
    (n : Int) (evs0 : List Event)
    (h : resolveNumTablets st sch env = (Except.ok n, evs0)) :
    evs0 = [] ∨ evs0 = [Event.numTabletsQuery st.table_type_] := by
  unfold resolveNumTablets at h
  split_ifs at h <;> simp_all

/-- `Create` reduces to `submitWithSchema` once the name check and the
schema section pass. -/
theorem create_found (st : YBTableCreator) (env : CreateEnv) (sch : YBSchema)
    (hname : ¬ st.table_name_.table_name = "")
    (hsch : schemaStep st = SchemaStep.found sch) :
    Create st env = submitWithSchema st env sch := by
  unfold Create
  rw [if_neg hname, hsch]

/-- Characterization of `submitWithSchema` after a successful
resolution and a fixed master answer. -/
theorem submit_eq (st : YBTableCreator) (env : CreateEnv) (sch : YBSchema)
    (n : Int) (evs0 : List Event) (s : Status) (tid : String)
    (hres : resolveNumTablets st sch env = (Except.ok n, evs0))
    (hct : env.createTable (buildRequest st sch n) (deadlineOf st env) st.table_id_ = (s, tid)) :
    submitWithSchema st env sch =
      (if ¬ s.ok ∧ ¬ s.IsAlreadyPresent then
        CreateResult.returned
          (s.CloneAndPrepend
            ("Error creating " ++ objectType st ++ " " ++
              st.table_name_.ToString ++ " on the master"))
          tid (evs0 ++ [Event.createTableCall (buildRequest st sch n) (deadlineOf st env)])
      else if st.wait_ then
        match env.waitForCreateTableToFinish tid (deadlineOf st env) with
        | Except.error e =>
            CreateResult.returned e tid
              ((evs0 ++ [Event.createTableCall (buildRequest st sch n) (deadlineOf st env)]) ++
                [Event.waitCall tid (deadlineOf st env)])
        | Except.ok _ =>
            CreateResult.returned s tid
              ((evs0 ++ [Event.createTableCall (buildRequest st sch n) (deadlineOf st env)]) ++
                [Event.waitCall tid (deadlineOf st env)])
      else
        CreateResult.returned s tid
          (evs0 ++ [Event.createTableCall (buildRequest st sch n) (deadlineOf st env)])) := by
  unfold submitWithSchema
  rw [hres]
  simp only [hct]

/-- The failed-resolution branch of `submitWithSchema`. -/
theorem submit_err (st : YBTableCreator) (env : CreateEnv) (sch : YBSchema)
    (e : Status) (evs0 : List Event)
    (hres : resolveNumTablets st sch env = (Except.error e, evs0)) :
    submitWithSchema st env sch = CreateResult.returned e st.table_id_ evs0 := by
  unfold submitWithSchema
  rw [hres]

/-- Once the schema section has passed, every result of the remaining
phase carries at least one collaborator event. -/
theorem submit_events_nonempty (st : YBTableCreator) (env : CreateEnv) (sch : YBSchema)
    (s : Status) (tid : String) (evs : List Event)
    (h : submitWithSchema st env sch = CreateResult.returned s tid evs) :
    evs ≠ [] := by
  rcases hres : resolveNumTablets st sch env with ⟨r, evs0⟩
  cases r with
  | error e =>
      rw [submit_err st env sch e evs0 hres] at h
      have hevs0 := resolve_error_evs st sch env e evs0 hres
      cases h
      simp [hevs0]
  | ok n =>
      rcases hct : env.createTable (buildRequest st sch n) (deadlineOf st env) st.table_id_
        with ⟨s0, tid0⟩
      rw [submit_eq st env sch n evs0 s0 tid0 hres hct] at h
      split_ifs at h with h1 h2
      · cases h; simp
      · rcases hw : env.waitForCreateTableToFinish tid0 (deadlineOf st env) with e0 | u
        · rw [hw] at h; cases h; simp
        · rw [hw] at h; cases h; simp
      · cases h; simp

/-- C5: `Create()` with an empty local table name fails with
`InvalidArgument` whose message names the missing object ("Missing table
name" or "Missing index name", per the index association), regardless of
every other field, with an empty collaborator trace — no schema
synthesis, tablet-count resolution or catalog call happens. -/
theorem missing_name_invalid_argument (st : YBTableCreator) (env : CreateEnv)
    (h : st.table_name_.table_name = "") :
    Create st env =
      CreateResult.returned
        ⟨StatusCode.kInvalidArgument, "Missing " ++ objectType st ++ " name"⟩
        st.table_id_ [] ∧
    (objectType st = "table" ∨ objectType st = "index") := by
  constructor
  · unfold Create
    rw [if_pos h]
  · unfold objectType
    by_cases hi : st.index_info_.indexed_table_id.isSome <;> simp [hi]

/-- Witness for C5: the fresh builder has an empty name and fails with
"Missing table name" and no collaborator event. -/
theorem missing_name_invalid_argument_witness :
    Create initialCreator okEnv =
      CreateResult.returned
        ⟨StatusCode.kInvalidArgument, "Missing table name"⟩ "" [] := by
  have h := missing_name_invalid_argument initialCreator okEnv rfl
  simpa using h.1

/-- A named builder state with no schema set (and a non-Redis kind). -/
def noSchemaSt : YBTableCreator :=
  { initialCreator with table_name_ := ⟨"ns", "t", false⟩ }

/-- C6: for a kind other than Redis and transaction-status, a set name
and no schema make `Create()` fail with `InvalidArgument("Missing
schema")` before any collaborator event; with a schema set, `Create()`
never returns with an empty collaborator trace, so it cannot fail for
this (pre-network) reason. -/
theorem missing_schema_invalid_argument (st : YBTableCreator) (env : CreateEnv)
    (hname : ¬ st.table_name_.table_name = "")
    (hk1 : st.table_type_ ≠ TableType.REDIS_TABLE_TYPE)
    (hk2 : st.table_type_ ≠ TableType.TRANSACTION_STATUS_TABLE_TYPE) :
    (st.schema_ = none →
      Create st env =
        CreateResult.returned
          ⟨StatusCode.kInvalidArgument, "Missing schema"⟩ st.table_id_ []) ∧
    (∀ sch, st.schema_ = some sch →
      ∀ s tid, Create st env ≠ CreateResult.returned s tid []) := by
  have hknot : ¬ (st.table_type_ = TableType.REDIS_TABLE_TYPE ∨
      st.table_type_ = TableType.TRANSACTION_STATUS_TABLE_TYPE) := by
    rintro (h | h)
    · exact hk1 h
    · exact hk2 h
  constructor
  · intro hs
    have hstep : schemaStep st = SchemaStep.missing := by
      unfold schemaStep
      rw [if_neg hknot, hs]
    unfold Create
    rw [if_neg hname, hstep]
  · intro sch hs s tid hcontra
    have hstep : schemaStep st = SchemaStep.found sch := by
      unfold schemaStep
      rw [if_neg hknot, hs]
    rw [create_found st env sch hname hstep] at hcontra
    exact submit_events_nonempty st env sch s tid [] hcontra rfl

/-- Witness for C6: with no schema the named builder fails with "Missing
schema" and no event; with a schema set it does not return the
pre-network Missing-schema failure. -/
theorem missing_schema_invalid_argument_witness :
    Create noSchemaSt okEnv =
      CreateResult.returned ⟨StatusCode.kInvalidArgument, "Missing schema"⟩ "" [] ∧
    Create readySt okEnv ≠
      CreateResult.returned ⟨StatusCode.kInvalidArgument, "Missing schema"⟩ "" [] := by
  constructor
  · have h := missing_schema_invalid_argument noSchemaSt okEnv
      (by decide) (by decide) (by decide)
    simpa using h.1 rfl
  · have h := missing_schema_invalid_argument readySt okEnv
      (by decide) (by decide) (by decide)
    exact h.2 sampleSchema rfl ⟨StatusCode.kInvalidArgument, "Missing schema"⟩ ""

/-- C2: tablet-count resolution is deterministic with strict precedence
— a positive explicit count wins; else a positive schema-declared count;
else 1 for a system table; else the topology recommendation (with its
one query event), whose failure makes `Create()` return exactly that
failure; and explicit=5 with schema-declared=3 resolves to 5. -/
theorem tablet_count_precedence (st : YBTableCreator) (sch : YBSchema) (env : CreateEnv) :
    (st.num_tablets_ > 0 →
      resolveNumTablets st sch env = (Except.ok st.num_tablets_, [])) ∧
    (st.num_tablets_ ≤ 0 → sch.props_num_tablets > 0 →
      resolveNumTablets st sch env = (Except.ok sch.props_num_tablets, [])) ∧
    (st.num_tablets_ ≤ 0 → sch.props_num_tablets ≤ 0 → st.table_name_.is_system = true →
      resolveNumTablets st sch env = (Except.ok 1, [])) ∧
    (st.num_tablets_ ≤ 0 → sch.props_num_tablets ≤ 0 → st.table_name_.is_system = false →
      resolveNumTablets st sch env =
        (env.numTabletsForUserTable st.table_type_,
         [Event.numTabletsQuery st.table_type_])) ∧
    (∀ e evs0, ¬ st.table_name_.table_name = "" → schemaStep st = SchemaStep.found sch →
      resolveNumTablets st sch env = (Except.error e, evs0) →
      Create st env = CreateResult.returned e st.table_id_ evs0) ∧
    (st.num_tablets_ = 5 → sch.props_num_tablets = 3 →
      resolveNumTablets st sch env = (Except.ok 5, [])) := by
  refine ⟨?_, ?_, ?_, ?_, ?_, ?_⟩
  · intro h
    unfold resolveNumTablets
    rw [if_pos h]
  · intro h1 h2
    unfold resolveNumTablets
    rw [if_neg (by omega : ¬ st.num_tablets_ > 0), if_pos h2]
  · intro h1 h2 h3
    unfold resolveNumTablets
    rw [if_neg (by omega : ¬ st.num_tablets_ > 0),
        if_neg (by omega : ¬ sch.props_num_tablets > 0), if_pos h3]
  · intro h1 h2 h3
    unfold resolveNumTablets
    rw [if_neg (by omega : ¬ st.num_tablets_ > 0),
        if_neg (by omega : ¬ sch.props_num_tablets > 0), if_neg (by simp [h3])]
  · intro e evs0 hname hstep hres
    rw [create_found st env sch hname hstep]
    exact submit_err st env sch e evs0 hres
  · intro h5 h3
    unfold resolveNumTablets
    rw [h5]
    norm_num

/-- Witness for C2: explicit count 5 with schema-declared count 3
resolves to 5. -/
theorem tablet_count_precedence_witness :
    resolveNumTablets readySt sampleSchema3 okEnv = (Except.ok 5, []) :=
  (tablet_count_precedence readySt sampleSchema3 okEnv).2.2.2.2.2 rfl rfl

/-- C4: every run of `Create()` computes exactly one absolute deadline —
now plus the caller timeout when set, else the default admin-operation
timeout (`deadlineOf`) — every catalog creation call and every readiness
wait in the trace carries exactly that deadline, and when the readiness
wait the trace records fails, `Create()` returns that very failure. -/
theorem single_absolute_deadline (st : YBTableCreator) (env : CreateEnv)
    (s : Status) (tid : String) (evs : List Event)
    (hret : Create st env = CreateResult.returned s tid evs) :
    (∀ r d, Event.createTableCall r d ∈ evs → d = deadlineOf st env) ∧
    (∀ i d, Event.waitCall i d ∈ evs → d = deadlineOf st env) ∧
    (∀ i d e, Event.waitCall i d ∈ evs →
      env.waitForCreateTableToFinish i d = Except.error e → s = e) := by
  by_cases hname : st.table_name_.table_name = ""
  · have hC : Create st env =
        CreateResult.returned
          ⟨StatusCode.kInvalidArgument, "Missing " ++ objectType st ++ " name"⟩
          st.table_id_ [] := by
      unfold Create
      rw [if_pos hname]
    rw [hC] at hret
    simp only [CreateResult.returned.injEq] at hret
    obtain ⟨rfl, rfl, rfl⟩ := hret
    simp
  · rcases hstep : schemaStep st with m | _ | sch
    · have hC : Create st env = CreateResult.crashed m := by
        unfold Create
        rw [if_neg hname, hstep]
      rw [hC] at hret
      simp at hret
    · have hC : Create st env =
          CreateResult.returned
            ⟨StatusCode.kInvalidArgument, "Missing schema"⟩ st.table_id_ [] := by
        unfold Create
        rw [if_neg hname, hstep]
      rw [hC] at hret
      simp only [CreateResult.returned.injEq] at hret
      obtain ⟨rfl, rfl, rfl⟩ := hret
      simp
    · rw [create_found st env sch hname hstep] at hret
      rcases hres : resolveNumTablets st sch env with ⟨r, evs0⟩
      cases r with
      | error e0 =>
          rw [submit_err st env sch e0 evs0 hres] at hret
          simp only [CreateResult.returned.injEq] at hret
          obtain ⟨rfl, rfl, rfl⟩ := hret
          have hevs0 := resolve_error_evs st sch env e0 evs0 hres
          subst hevs0
          simp
      | ok n =>
          rcases hct : env.createTable (buildRequest st sch n) (deadlineOf st env) st.table_id_
            with ⟨s0, tid0⟩
          rw [submit_eq st env sch n evs0 s0 tid0 hres hct] at hret
          have hevs0 := resolve_ok_evs st sch env n evs0 hres
          split_ifs at hret with h1 h2
          · simp only [CreateResult.returned.injEq] at hret
            obtain ⟨rfl, rfl, rfl⟩ := hret
            rcases hevs0 with h0 | h0 <;> subst h0 <;>
              refine ⟨?_, ?_, ?_⟩ <;> simp_all
          · rcases hw : env.waitForCreateTableToFinish tid0 (deadlineOf st env) with e0 | u <;>
              rw [hw] at hret <;>
              simp only [CreateResult.returned.injEq] at hret <;>
              obtain ⟨rfl, rfl, rfl⟩ := hret
            · rcases hevs0 with h0 | h0 <;> subst h0 <;>
                refine ⟨by simp_all, by simp_all, ?_⟩ <;>
                · intro i d e hmem henv
                  simp only [List.mem_append, List.mem_singleton] at hmem
                  rcases hmem with (hmem | hmem) | hmem
                  · simp_all
                  · simp_all
                  · obtain ⟨rfl, rfl⟩ : i = tid0 ∧ d = deadlineOf st env := by
                      simpa using hmem
                    rw [hw] at henv
                    exact Except.error.inj henv
            · rcases hevs0 with h0 | h0 <;> subst h0 <;>
                refine ⟨by simp_all, by simp_all, ?_⟩ <;>
                · intro i d e hmem henv
                  simp only [List.mem_append, List.mem_singleton] at hmem
                  rcases hmem with (hmem | hmem) | hmem
                  · simp_all
                  · simp_all
                  · obtain ⟨rfl, rfl⟩ : i = tid0 ∧ d = deadlineOf st env := by
                      simpa using hmem
                    rw [hw] at henv
                    cases henv
          · simp only [CreateResult.returned.injEq] at hret
            obtain ⟨rfl, rfl, rfl⟩ := hret
            rcases hevs0 with h0 | h0 <;> subst h0 <;>
              refine ⟨?_, ?_, ?_⟩ <;> simp_all

/-- Witness for C4: a concrete successful run whose trace shows the one
deadline 160 = 100 + 60 on the creation call. -/
theorem single_absolute_deadline_witness :
    Create readySt okEnv =
      CreateResult.returned ⟨StatusCode.kOk, ""⟩ ""
        [Event.createTableCall (buildRequest readySt sampleSchema 5) 160,
         Event.waitCall "" 160] ∧
    (160 : Nat) = deadlineOf readySt okEnv := by
  have hrun : Create readySt okEnv =
      CreateResult.returned ⟨StatusCode.kOk, ""⟩ ""
        [Event.createTableCall (buildRequest readySt sampleSchema 5) 160,
         Event.waitCall "" 160] := by decide
  refine ⟨hrun, ?_⟩
  have h := single_absolute_deadline readySt okEnv ⟨StatusCode.kOk, ""⟩ ""
    [Event.createTableCall (buildRequest readySt sampleSchema 5) 160,
     Event.waitCall "" 160] hrun
  exact h.1 (buildRequest readySt sampleSchema 5) 160 (by simp)

/-- Counterexample to C1 as stated: with a catalog answering
`AlreadyPresent` and a readiness wait that succeeds, `Create()` proceeds
through the wait but returns the `AlreadyPresent` status itself — an
error status (`ok = false`), not success: the source ends with
`return s;`, not `return Status::OK();`. -/
theorem already_present_surfaced_cex :
    Create readySt alreadyEnv =
      CreateResult.returned ⟨StatusCode.kAlreadyPresent, "Table already exists"⟩ ""
        [Event.createTableCall (buildRequest readySt sampleSchema 5) 160,
         Event.waitCall "" 160] ∧
    Status.ok ⟨StatusCode.kAlreadyPresent, "Table already exists"⟩ = false := by
  constructor
  · decide
  · decide

/-- C1 (amended): an `AlreadyPresent` answer from the catalog skips the
error-prepend branch and `Create()` still proceeds to the readiness-wait
phase when `wait_` is set; after a successful wait it returns the
original `AlreadyPresent` status — an error status, not success — with
`table_id_` as the catalog call left it (the previously known id). -/
theorem already_present_waits_then_returns_already
    (st : YBTableCreator) (env : CreateEnv) (sch : YBSchema) (n : Int)
    (evs0 : List Event) (s : Status) (tid : String)
    (hname : ¬ st.table_name_.table_name = "")
    (hstep : schemaStep st = SchemaStep.found sch)
    (hres : resolveNumTablets st sch env = (Except.ok n, evs0))
    (hct : env.createTable (buildRequest st sch n) (deadlineOf st env) st.table_id_ = (s, tid))
    (halready : s.code = StatusCode.kAlreadyPresent)
    (hwait : st.wait_ = true)
    (hok : env.waitForCreateTableToFinish tid (deadlineOf st env) = Except.ok ()) :
    Create st env =
      CreateResult.returned s tid
        ((evs0 ++ [Event.createTableCall (buildRequest st sch n) (deadlineOf st env)]) ++
          [Event.waitCall tid (deadlineOf st env)]) ∧
    s.ok = false := by
  have hAP : s.IsAlreadyPresent = true := by
    simp [Status.IsAlreadyPresent, halready]
  constructor
  · rw [create_found st env sch hname hstep,
        submit_eq st env sch n evs0 s tid hres hct]
    rw [if_neg (by simp [hAP] : ¬ (¬ s.ok = true ∧ ¬ s.IsAlreadyPresent = true)),
        if_pos hwait, hok]
  · simp [Status.ok, halready]

/-- Witness for the amended C1: the concrete already-present run reaches
the wait phase and returns the `AlreadyPresent` status. -/
theorem already_present_waits_then_returns_already_witness :
    Create readySt alreadyEnv =
      CreateResult.returned ⟨StatusCode.kAlreadyPresent, "Table already exists"⟩ ""
        (([] ++ [Event.createTableCall (buildRequest readySt sampleSchema 5)
            (deadlineOf readySt alreadyEnv)]) ++
          [Event.waitCall "" (deadlineOf readySt alreadyEnv)]) ∧
    Status.ok ⟨StatusCode.kAlreadyPresent, "Table already exists"⟩ = false :=
  already_present_waits_then_returns_already readySt alreadyEnv sampleSchema 5 []
    ⟨StatusCode.kAlreadyPresent, "Table already exists"⟩ ""
    (by decide) (by decide) rfl (by decide) (by decide) (by decide) rfl

/-- The request a trace's creation call carries is exactly
`buildRequest` at the resolved tablet count. -/
theorem submit_request_shape (st : YBTableCreator) (env : CreateEnv) (sch : YBSchema)
    (s : Status) (tid : String) (evs : List Event) (r : CreateTableRequestPB) (d : Nat)
    (h : submitWithSchema st env sch = CreateResult.returned s tid evs)
    (hmem : Event.createTableCall r d ∈ evs) :
    ∃ n evs0, resolveNumTablets st sch env = (Except.ok n, evs0) ∧
      r = buildRequest st sch n := by
  rcases hres : resolveNumTablets st sch env with ⟨rr, evs0⟩
  cases rr with
  | error e0 =>
      rw [submit_err st env sch e0 evs0 hres] at h
      simp only [CreateResult.returned.injEq] at h
      obtain ⟨rfl, rfl, rfl⟩ := h
      have hevs0 := resolve_error_evs st sch env e0 evs0 hres
      subst hevs0
      simp at hmem
  | ok n =>
      refine ⟨n, evs0, rfl, ?_⟩
      rcases hct : env.createTable (buildRequest st sch n) (deadlineOf st env) st.table_id_
        with ⟨s0, tid0⟩
      rw [submit_eq st env sch n evs0 s0 tid0 hres hct] at h
      have hevs0 := resolve_ok_evs st sch env n evs0 hres
      split_ifs at h with h1 h2
      · simp only [CreateResult.returned.injEq] at h
        obtain ⟨rfl, rfl, rfl⟩ := h
        rcases hevs0 with h0 | h0 <;> subst h0 <;> simp_all
      · rcases hw : env.waitForCreateTableToFinish tid0 (deadlineOf st env) with e0 | u <;>
          rw [hw] at h <;>
          simp only [CreateResult.returned.injEq] at h <;>
          obtain ⟨rfl, rfl, rfl⟩ := h <;>
          rcases hevs0 with h0 | h0 <;> subst h0 <;> simp_all
      · simp only [CreateResult.returned.injEq] at h
        obtain ⟨rfl, rfl, rfl⟩ := h
        rcases hevs0 with h0 | h0 <;> subst h0 <;> simp_all

/-- C3: for a Redis-compatible or transaction-status kind with no schema
set, the schema section synthesizes the one-column binary
hash-primary-key schema (`redisSchema`), every creation request the run
issues serializes exactly that schema's columns — never a caller-set
one — and an externally supplied schema for those kinds makes
`Create()` die on the `CHECK` assertion instead of returning an error. -/
theorem redis_schema_synthesized (st : YBTableCreator) (env : CreateEnv)
    (hk : st.table_type_ = TableType.REDIS_TABLE_TYPE ∨
          st.table_type_ = TableType.TRANSACTION_STATUS_TABLE_TYPE) :
    (st.schema_ = none → schemaStep st = SchemaStep.found redisSchema) ∧
    redisSchema.columns = [⟨kRedisKeyColumnName, DataType.BINARY, true, true⟩] ∧
    (∀ sch, st.schema_ = some sch → ¬ st.table_name_.table_name = "" →
      Create st env =
        CreateResult.crashed "Schema should not be set for redis table creation") ∧
    (st.schema_ = none → ¬ st.table_name_.table_name = "" →
      ∀ s tid evs r d, Create st env = CreateResult.returned s tid evs →
        Event.createTableCall r d ∈ evs →
        r.schema.columns = redisSchema.columns) := by
  have hfound : st.schema_ = none → schemaStep st = SchemaStep.found redisSchema := by
    intro hs
    unfold schemaStep
    rw [if_pos hk, hs]
  refine ⟨hfound, rfl, ?_, ?_⟩
  · intro sch hs hname
    have hstep : schemaStep st =
        SchemaStep.checkFailed "Schema should not be set for redis table creation" := by
      unfold schemaStep
      rw [if_pos hk, hs]
    unfold Create
    rw [if_neg hname, hstep]
  · intro hs hname s tid evs r d hret hmem
    rw [create_found st env redisSchema hname (hfound hs)] at hret
    obtain ⟨n, evs0, hres, rfl⟩ :=
      submit_request_shape st env redisSchema s tid evs r d hret hmem
    rfl

/-- A Redis-kind builder state with a name and no schema. -/
def redisSt : YBTableCreator :=
  { initialCreator with
      table_name_ := ⟨"ns", "r", false⟩
      table_type_ := TableType.REDIS_TABLE_TYPE }

/-- Witness for C3: the Redis builder synthesizes `redisSchema`, and
setting a schema on it makes `Create()` crash on the assertion. -/
theorem redis_schema_synthesized_witness :
    schemaStep redisSt = SchemaStep.found redisSchema ∧
    Create { redisSt with schema_ := some sampleSchema } okEnv =
      CreateResult.crashed "Schema should not be set for redis table creation" := by
  have h1 := redis_schema_synthesized redisSt okEnv (Or.inl rfl)
  have h2 := redis_schema_synthesized { redisSt with schema_ := some sampleSchema } okEnv
    (Or.inl rfl)
  exact ⟨h1.1 rfl, h2.2.2.1 sampleSchema rfl (by decide)⟩

/-- C7: an index association present in the specification is copied into
the request both as the structured message and as the duplicated legacy
scalar fields, each legacy field equal to its structured counterpart;
without an index association, none of these four request fields are
set. -/
theorem index_legacy_fields_duplicated (st : YBTableCreator) (sch : YBSchema) (n : Int) :
    (∀ iid, st.index_info_.indexed_table_id = some iid →
      (buildRequest st sch n).index_info = some st.index_info_ ∧
      (buildRequest st sch n).indexed_table_id = some iid ∧
      (buildRequest st sch n).is_local_index = some st.index_info_.is_local_get ∧
      (buildRequest st sch n).is_unique_index = some st.index_info_.is_unique_get) ∧
    (st.index_info_.indexed_table_id = none →
      (buildRequest st sch n).index_info = none ∧
      (buildRequest st sch n).indexed_table_id = none ∧
      (buildRequest st sch n).is_local_index = none ∧
      (buildRequest st sch n).is_unique_index = none) := by
  constructor
  · intro iid h
    simp [buildRequest, h]
  · intro h
    simp [buildRequest, h]

/-- A builder state carrying an index association. -/
def idxSt : YBTableCreator :=
  { readySt with
      index_info_ :=
        { IndexInfoPB.default with
            indexed_table_id := some "base"
            is_local := some true
            is_unique := some false } }

/-- Witness for C7: with the association set, the legacy fields carry
the structured values; without it, they are absent. -/
theorem index_legacy_fields_duplicated_witness :
    (buildRequest idxSt sampleSchema 5).indexed_table_id = some "base" ∧
    (buildRequest idxSt sampleSchema 5).is_local_index = some true ∧
    (buildRequest readySt sampleSchema 5).indexed_table_id = none := by
  have h1 := (index_legacy_fields_duplicated idxSt sampleSchema 5).1 "base" rfl
  have h2 := (index_legacy_fields_duplicated readySt sampleSchema 5).2 rfl
  exact ⟨h1.2.1, h1.2.2.1, h2.2.1⟩

/-- C8: the pg-catalog / pg-shared tri-state flags reach the wire
request exactly as the builder holds them — absent when never set —
and the public setters can only install the value `true`. -/
theorem pg_flags_tristate (st : YBTableCreator) (sch : YBSchema) (n : Int) :
    (buildRequest st sch n).is_pg_catalog_table = st.is_pg_catalog_table_ ∧
    (buildRequest st sch n).is_pg_shared_table = st.is_pg_shared_table_ ∧
    (YBTableCreator.is_pg_catalog_table st).is_pg_catalog_table_ = some true ∧
    (YBTableCreator.is_pg_shared_table st).is_pg_shared_table_ = some true := by
  refine ⟨?_, ?_, rfl, rfl⟩
  · rcases h : st.is_pg_catalog_table_ with _ | b <;> simp [buildRequest, h]
  · rcases h : st.is_pg_shared_table_ with _ | b <;> simp [buildRequest, h]

/-- C9: any two builder setter calls targeting distinct fields commute
on every builder state; each setter is a total function on the state
(no validation, no failure mode) returning the same builder. -/
theorem setters_commute (a b : SetterCall) (st : YBTableCreator)
    (h : a.targets ≠ b.targets) :
    SetterCall.apply a (SetterCall.apply b st) =
      SetterCall.apply b (SetterCall.apply a st) := by
  cases a <;> cases b <;> first
    | rfl
    | exact absurd rfl h

/-- Witness for C9: `num_tablets` and `wait` target distinct fields and
commute on the fresh builder. -/
theorem setters_commute_witness :
    SetterCall.targets (SetterCall.num_tablets 5) ≠
      SetterCall.targets (SetterCall.wait false) ∧
    SetterCall.apply (SetterCall.num_tablets 5)
        (SetterCall.apply (SetterCall.wait false) initialCreator) =
      SetterCall.apply (SetterCall.wait false)
        (SetterCall.apply (SetterCall.num_tablets 5) initialCreator) :=
  ⟨by decide,
   setters_commute (SetterCall.num_tablets 5) (SetterCall.wait false)
     initialCreator (by decide)⟩

/-- C10: `set_range_partition_columns` is last-write-wins — a second
call erases the first call's columns entirely — while
`add_hash_partitions` accumulates: each call appends one bucket-schema
entry (seed 0 in the two-argument form) after the existing ones. -/
theorem range_overwrites_hash_appends (st : YBTableCreator)
    (cols1 cols2 : List String) (nb seed : Int) :
    (st.set_range_partition_columns cols1).set_range_partition_columns cols2 =
      st.set_range_partition_columns cols2 ∧
    (st.set_range_partition_columns cols1).partition_schema_.range_schema =
      some ⟨cols1⟩ ∧
    (st.add_hash_partitions3 cols1 nb seed).partition_schema_.hash_bucket_schemas =
      st.partition_schema_.hash_bucket_schemas ++ [⟨cols1, nb, seed⟩] ∧
    st.add_hash_partitions cols1 nb = st.add_hash_partitions3 cols1 nb 0 ∧
    ((st.add_hash_partitions3 cols1 nb seed).add_hash_partitions3
        cols2 nb seed).partition_schema_.hash_bucket_schemas =
      st.partition_schema_.hash_bucket_schemas ++
        [⟨cols1, nb, seed⟩, ⟨cols2, nb, seed⟩] := by
  refine ⟨rfl, rfl, rfl, rfl, ?_⟩
  simp [YBTableCreator.add_hash_partitions3]

end YbTableCreator
